import Mathlib

/-!
# The citar model store (`model/model.go`)

A shallow embedding of the `Model` aggregate of the citar trigram tagger: its
constructor, accessors, summary string and its gob encoding and decoding.

* Go's `map[K]V` is read as a finite mapping (`Finmap`): equality of two
  `GoMap`s is equality as mappings, a nil map and an empty map coincide.
* `[]byte` is a list of bytes; the nil slice is the empty list.
* `error` is `Option GoError`; `nil` is `none`.
* `encoding/gob` is a library outside the repository. It enters as a
  parameter `GobCodec`: what `Encode` leaves in the buffer and returns, and
  what `Decode` leaves in its target and returns. Properties of the library
  that a statement relies on are named hypotheses (`RoundTrips`,
  `RejectsTruncation`) and never built into the definitions.
-/

namespace Citar

/-! ## Go primitives -/

/-- Go's `map[K]V` as a finite mapping from keys to values. -/
abbrev GoMap (K V : Type) := Finmap (fun _ : K => V)

/-- Go's builtin `len` on a map: the number of keys. -/
def GoMap.len {K V : Type} (m : GoMap K V) : Nat := m.keys.card

/-- Go's `[]byte`. -/
abbrev Bytes := List (Fin 256)

/-- A non-nil Go `error` value, identified by its message. -/
structure GoError where
  msg : String
deriving DecidableEq, Repr

/-! ## Types of package `model` declared outside `model.go` -/

/-- Modelled from the spec: the type `Tag` (declared in a file of the package
that is not part of the fragment), "an opaque small-integer code representing
a part-of-speech tag". -/
abbrev Tag := Nat

/-- Modelled from the spec: the type `Unigram`, "a single Tag". -/
structure Unigram where
  T1 : Tag
deriving DecidableEq, Repr

/-- Modelled from the spec: the type `Bigram`, "an ordered pair of Tags
(previous, current)". -/
structure Bigram where
  T1 : Tag
  T2 : Tag
deriving DecidableEq, Repr

/-- Modelled from the spec: the type `Trigram`, "an ordered triple of Tags
(previous-previous, previous, current)". -/
structure Trigram where
  T1 : Tag
  T2 : Tag
  T3 : Tag
deriving DecidableEq, Repr

/-- Modelled from the spec: the type `StringNumberer`, the registry between tag
names and tag codes (§6, collaborator contract). The known (name, code) pairs
are the labels with their positions: the label at position `i` has code `i`. -/
structure StringNumberer where
  labels : List String
deriving DecidableEq, Repr

/-- Modelled from the spec: `nameFor(Tag) -> string`, "failing if the code is
unknown" (§6 (b)). -/
def StringNumberer.nameFor (n : StringNumberer) (t : Tag) : Option String :=
  n.labels.get? t

/-- Modelled from the spec: `codeFor(tagName) -> Tag`, "allocating a new unique
code on first sight and returning the existing one otherwise" (§6 (a)). The
result is the numberer after the call and the code. -/
def StringNumberer.codeFor (n : StringNumberer) (name : String) : StringNumberer × Tag :=
  if name ∈ n.labels then (n, n.labels.indexOf name)
  else ({ labels := n.labels ++ [name] }, n.labels.length)

/-! ## `model.go` -/

/-- The type `ClosedClassSet`, `map[string]interface{}`: tag names mapped to a
marker. `Marker` stands for the dynamic values an `interface{}` holds. -/
abbrev ClosedClassSet (Marker : Type) := GoMap String Marker

/-- The struct `Model`. A `*StringNumberer` is `none` when nil. -/
structure Model (Marker : Type) where
  tagNumberer : Option StringNumberer
  wordTagFreqs : GoMap String (GoMap Tag Int)
  unigramFreqs : GoMap Unigram Int
  bigramFreqs : GoMap Bigram Int
  trigramFreqs : GoMap Trigram Int
  closedClass : ClosedClassSet Marker
deriving DecidableEq

/-- The struct `encodedModel`, the exported-field twin of `Model` handed to gob. -/
structure encodedModel (Marker : Type) where
  TagNumberer : Option StringNumberer
  WordTagFreqs : GoMap String (GoMap Tag Int)
  UnigramFreqs : GoMap Unigram Int
  BigramFreqs : GoMap Bigram Int
  TrigramFreqs : GoMap Trigram Int
  ClosedClass : ClosedClassSet Marker
deriving DecidableEq

/-- The two calls `model.go` makes into `encoding/gob`. -/
structure GobCodec (Marker : Type) where
  /-- `gob.NewEncoder(&buf).Encode(em)` on an empty `buf`: the bytes in `buf`
  afterwards and the error returned. -/
  encode : encodedModel Marker → Bytes × Option GoError
  /-- `gob.NewDecoder(bytes.NewBuffer(data)).Decode(&em)` on a zero `em`: the
  value of `em` afterwards and the error returned. -/
  decode : Bytes → encodedModel Marker × Option GoError

variable {Marker : Type}

/-- The function `newModel`. -/
def newModel (tagNumberer : Option StringNumberer)
    (wordTagFreqs : GoMap String (GoMap Tag Int))
    (unigramFreqs : GoMap Unigram Int) (bigramFreqs : GoMap Bigram Int)
    (trigramFreqs : GoMap Trigram Int) (closedClass : ClosedClassSet Marker) :
    Model Marker :=
  { tagNumberer := tagNumberer
    wordTagFreqs := wordTagFreqs
    unigramFreqs := unigramFreqs
    bigramFreqs := bigramFreqs
    trigramFreqs := trigramFreqs
    closedClass := closedClass }

/-- The method `ClosedClassTags`. -/
def Model.ClosedClassTags (m : Model Marker) : ClosedClassSet Marker :=
  m.closedClass

/-- The method `WordTagFreqs`. -/
def Model.WordTagFreqs (m : Model Marker) : GoMap String (GoMap Tag Int) :=
  m.wordTagFreqs

/-- The method `UnigramFreqs`. -/
def Model.UnigramFreqs (m : Model Marker) : GoMap Unigram Int :=
  m.unigramFreqs

/-- The method `BigramFreqs`. -/
def Model.BigramFreqs (m : Model Marker) : GoMap Bigram Int :=
  m.bigramFreqs

/-- The method `TrigramFreqs`. -/
def Model.TrigramFreqs (m : Model Marker) : GoMap Trigram Int :=
  m.trigramFreqs

/-- The method `TagNumberer`. -/
def Model.TagNumberer (m : Model Marker) : Option StringNumberer :=
  m.tagNumberer

/-- The method `GobDecode` on receiver `m *Model`: the receiver after the call
and the error returned. -/
def Model.GobDecode (gob : GobCodec Marker) (m : Model Marker) (data : Bytes) :
    Model Marker × Option GoError :=
  match gob.decode data with
  | (_, some err) => (m, some err)
  | (em, none) =>
    let m := { m with tagNumberer := em.TagNumberer }
    let m := { m with wordTagFreqs := em.WordTagFreqs }
    let m := { m with unigramFreqs := em.UnigramFreqs }
    let m := { m with bigramFreqs := em.BigramFreqs }
    let m := { m with trigramFreqs := em.TrigramFreqs }
    let m := { m with closedClass := em.ClosedClass }
    (m, none)

/-- The method `GobEncode`: the bytes and the error returned. -/
def Model.GobEncode (gob : GobCodec Marker) (m : Model Marker) : Bytes × Option GoError :=
  let em : encodedModel Marker :=
    { TagNumberer := m.tagNumberer
      WordTagFreqs := m.wordTagFreqs
      UnigramFreqs := m.unigramFreqs
      BigramFreqs := m.bigramFreqs
      TrigramFreqs := m.trigramFreqs
      ClosedClass := m.closedClass }
  match gob.encode em with
  | (_, some err) => ([], some err)
  | (buf, none) => (buf, none)

/-- The verb `%d` of package `fmt` on an `int`: its decimal digits, with a
leading minus sign when negative. -/
def formatInt (i : Int) : List Char := (toString i).toList

/-- The body of `fmt.Sprintf` for a format whose only verbs are `%d` and whose
operands are `int`s: text is copied, each `%d` consumes the next operand. -/
def sprintfAux : List Char → List Int → List Char
  | [], _ => []
  | '%' :: 'd' :: rest, [] => "%!d(MISSING)".toList ++ sprintfAux rest []
  | '%' :: 'd' :: rest, a :: args => formatInt a ++ sprintfAux rest args
  | c :: rest, args => c :: sprintfAux rest args

/-- The function `fmt.Sprintf`, restricted as `sprintfAux` says. -/
def Sprintf (format : String) (args : List Int) : String :=
  String.mk (sprintfAux format.toList args)

/-- The method `String`. -/
def Model.String (m : Model Marker) : String :=
  Sprintf "%d words, %d unigrams, %d bigrams, %d trigrams"
    [(m.wordTagFreqs.len : Int), (m.unigramFreqs.len : Int),
     (m.bigramFreqs.len : Int), (m.trigramFreqs.len : Int)]

/-! ## Properties the statements speak of -/

/-- Modelled from the spec: the contract of the serialization mechanism
(`encoding/gob`, a library outside the repository), §6: the byte layout is
whatever the mechanism defines, "provided it round-trips the data model in §3
exactly". What the encoder wrote without error, the decoder reads back without
error as the value that was encoded. -/
def GobCodec.RoundTrips (gob : GobCodec Marker) : Prop :=
  ∀ em b, gob.encode em = (b, none) → (gob.decode b) = (em, none)

/-- Modelled from the spec: the gob decoder (a library outside the
repository) on shortened input, §7: an error is "raised by decode when the
input bytes are truncated". The decoder fails on every encoder output cut by
at least one byte; gob messages carry their length, so a short stream ends in
`io.EOF` or `io.ErrUnexpectedEOF`. -/
def GobCodec.RejectsTruncation (gob : GobCodec Marker) : Prop :=
  ∀ em b p, gob.encode em = (b, none) → p <+: b → p ≠ b →
    ∃ err, (gob.decode p).2 = some err

/-- The numberer resolves code `t` to a name, and resolving that name back
yields `t` again without allocating. -/
def StringNumberer.resolves (n : StringNumberer) (t : Tag) : Bool :=
  match n.nameFor t with
  | none => false
  | some name => decide (n.codeFor name = (n, t))

/-- The Tag codes that appear in the four frequency tables of a model. -/
def Model.tagCodes (m : Model Marker) : Finset Tag :=
  (m.WordTagFreqs.keys.biUnion fun w =>
      ((m.WordTagFreqs.lookup w).map Finmap.keys).getD ∅)
    ∪ m.UnigramFreqs.keys.image Unigram.T1
    ∪ (m.BigramFreqs.keys.biUnion fun b => {b.T1, b.T2})
    ∪ (m.TrigramFreqs.keys.biUnion fun t => {t.T1, t.T2, t.T3})

/-- The numberer of the model resolves code `t`; a nil numberer resolves nothing. -/
def Model.resolvesTag (m : Model Marker) (t : Tag) : Bool :=
  match m.TagNumberer with
  | none => false
  | some n => n.resolves t

/-- Bijection consistency: every Tag code of the tables is resolved by the
numberer of the model. -/
def Model.tagsResolved (m : Model Marker) : Prop :=
  ∀ t ∈ m.tagCodes, m.resolvesTag t = true

/-- No entry of the table has count 0. -/
def GoMap.noZero {K : Type} [DecidableEq K] (m : GoMap K Int) : Prop :=
  ∀ k ∈ m.keys, m.lookup k ≠ some 0

/-- No entry of the word table has count 0, for any word and tag. -/
def GoMap.noZeroNested {K L : Type} [DecidableEq K] [DecidableEq L]
    (m : GoMap K (GoMap L Int)) : Prop :=
  ∀ k ∈ m.keys, ∀ inner ∈ m.lookup k, inner.noZero

/-- None of the four frequency accessors exposes an entry with count 0. -/
def Model.noZeroEntry (m : Model Marker) : Prop :=
  m.WordTagFreqs.noZeroNested ∧ m.UnigramFreqs.noZero ∧ m.BigramFreqs.noZero
    ∧ m.TrigramFreqs.noZero

instance {K : Type} [DecidableEq K] (m : GoMap K Int) : Decidable m.noZero := by
  unfold GoMap.noZero; infer_instance

instance {K L : Type} [DecidableEq K] [DecidableEq L] (m : GoMap K (GoMap L Int)) :
    Decidable m.noZeroNested := by
  unfold GoMap.noZeroNested; infer_instance

instance (m : Model Marker) : Decidable m.noZeroEntry := by
  unfold Model.noZeroEntry; infer_instance

instance (m : Model Marker) : Decidable m.tagsResolved := by
  unfold Model.tagsResolved; infer_instance

/-- The value `em` that `GobEncode` builds from its receiver. -/
def Model.encoded (m : Model Marker) : encodedModel Marker :=
  { TagNumberer := m.tagNumberer
    WordTagFreqs := m.wordTagFreqs
    UnigramFreqs := m.unigramFreqs
    BigramFreqs := m.bigramFreqs
    TrigramFreqs := m.trigramFreqs
    ClosedClass := m.closedClass }

/-! ## Sample data for the closed examples -/

/-- A numberer that knows two tags, `NN` with code 0 and `VB` with code 1. -/
def sampleNumberer : StringNumberer := { labels := ["NN", "VB"] }

/-- Word table of the sample: `dog` seen twice as `NN`. -/
def sampleWords : GoMap String (GoMap Tag Int) :=
  Finmap.singleton "dog" (Finmap.singleton 0 2)

/-- Unigram table of the sample. -/
def sampleUnigrams : GoMap Unigram Int := List.toFinmap [⟨⟨0⟩, 2⟩, ⟨⟨1⟩, 1⟩]

/-- Bigram table of the sample. -/
def sampleBigrams : GoMap Bigram Int := Finmap.singleton ⟨0, 1⟩ 1

/-- Trigram table of the sample. -/
def sampleTrigrams : GoMap Trigram Int := Finmap.singleton ⟨0, 1, 0⟩ 1

/-- Closed-class set of the sample: `DT`, a name the numberer does not know and
no table mentions. -/
def sampleClosed : ClosedClassSet Unit := Finmap.singleton "DT" ()

/-- What `GobEncode` hands to gob for the sample model. -/
def sampleEncoded : encodedModel Unit :=
  { TagNumberer := some sampleNumberer
    WordTagFreqs := sampleWords
    UnigramFreqs := sampleUnigrams
    BigramFreqs := sampleBigrams
    TrigramFreqs := sampleTrigrams
    ClosedClass := sampleClosed }

/-- Unigram table with code 0, which an empty numberer does not know. -/
def orphanUnigrams : GoMap Unigram Int := Finmap.singleton ⟨0⟩ 1

/-- An encoded model whose unigram table references a code absent from its
(empty) numberer. -/
def orphanEncoded : encodedModel Unit :=
  { TagNumberer := some { labels := [] }
    WordTagFreqs := ∅
    UnigramFreqs := orphanUnigrams
    BigramFreqs := ∅
    TrigramFreqs := ∅
    ClosedClass := ∅ }

/-- A decode target that a failed `Decode` left half filled. -/
def halfDecoded : encodedModel Unit :=
  { TagNumberer := some sampleNumberer
    WordTagFreqs := sampleWords
    UnigramFreqs := ∅
    BigramFreqs := ∅
    TrigramFreqs := ∅
    ClosedClass := ∅ }

/-- Bytes standing for the sample model: a length byte and three payload bytes. -/
def sampleBlob : Bytes := [3, 0, 1, 2]

/-- Bytes standing for the orphan model. -/
def orphanBlob : Bytes := [3, 1, 1, 2]

/-- A small instance of `GobCodec` for the closed examples. It writes the two
values above as length-prefixed blobs and fails on every other value after
writing one byte; it reads back exactly those blobs and fails on every other
input, leaving its target half filled. -/
def sampleCodec : GobCodec Unit where
  encode em :=
    if em = sampleEncoded then (sampleBlob, none)
    else if em = orphanEncoded then (orphanBlob, none)
    else ([1], some { msg := "gob: type not registered for interface" })
  decode data :=
    if data = sampleBlob then (sampleEncoded, none)
    else if data = orphanBlob then (orphanEncoded, none)
    else (halfDecoded, some { msg := "unexpected EOF" })

/-- A receiver with earlier contents, to see what a decode keeps of them. -/
def staleModel : Model Unit :=
  newModel none ∅ ∅ (Finmap.singleton ⟨5, 5⟩ 9) ∅ (Finmap.singleton "XX" ())

/-- A model with 3 words, 5 unigrams, 7 bigrams and 2 trigrams. -/
def summaryModel : Model Unit :=
  newModel (some sampleNumberer)
    (List.toFinmap [⟨"a", ∅⟩, ⟨"b", ∅⟩, ⟨"c", Finmap.singleton 0 1⟩])
    (List.toFinmap [⟨⟨0⟩, 1⟩, ⟨⟨1⟩, 1⟩, ⟨⟨2⟩, 1⟩, ⟨⟨3⟩, 1⟩, ⟨⟨4⟩, 1⟩])
    (List.toFinmap [⟨⟨0, 0⟩, 1⟩, ⟨⟨0, 1⟩, 1⟩, ⟨⟨0, 2⟩, 1⟩, ⟨⟨0, 3⟩, 1⟩, ⟨⟨1, 0⟩, 1⟩,
      ⟨⟨1, 1⟩, 1⟩, ⟨⟨1, 2⟩, 1⟩])
    (List.toFinmap [⟨⟨0, 0, 0⟩, 1⟩, ⟨⟨0, 0, 1⟩, 1⟩])
    ∅

/-- A word table that breaks the invariants: a zero count, under a tag code
that no numberer of the examples knows. -/
def zeroWords : GoMap String (GoMap Tag Int) :=
  Finmap.singleton "dog" (Finmap.singleton 7 0)

/-! ## Lemmas on the two gob methods -/

theorem GobDecode_of_ok (gob : GobCodec Marker) (m : Model Marker) (data : Bytes)
    (em : encodedModel Marker) (h : gob.decode data = (em, none)) :
    m.GobDecode gob data =
      (newModel em.TagNumberer em.WordTagFreqs em.UnigramFreqs em.BigramFreqs
        em.TrigramFreqs em.ClosedClass, none) := by
  simp [Model.GobDecode, h, newModel]

theorem GobDecode_of_error (gob : GobCodec Marker) (m : Model Marker) (data : Bytes)
    (err : GoError) (h : (gob.decode data).2 = some err) :
    m.GobDecode gob data = (m, some err) := by
  unfold Model.GobDecode
  rcases hd : gob.decode data with ⟨em, e⟩
  rw [hd] at h
  cases e with
  | none => simp at h
  | some e0 =>
    simp only [Option.some.injEq] at h
    subst h
    rfl

theorem GobEncode_eq (gob : GobCodec Marker) (m : Model Marker) :
    m.GobEncode gob =
      match gob.encode m.encoded with
      | (_, some err) => ([], some err)
      | (buf, none) => (buf, none) := rfl

theorem encode_of_GobEncode_ok (gob : GobCodec Marker) (m : Model Marker) (b : Bytes)
    (h : m.GobEncode gob = (b, none)) : gob.encode m.encoded = (b, none) := by
  rw [GobEncode_eq] at h
  rcases he : gob.encode m.encoded with ⟨buf, e⟩
  rw [he] at h
  cases e with
  | none => simpa using h
  | some e0 => simp at h

theorem GobDecode_GobEncode (gob : GobCodec Marker) (hrt : gob.RoundTrips)
    (m recv : Model Marker) (b : Bytes) (h : m.GobEncode gob = (b, none)) :
    recv.GobDecode gob b = (m, none) := by
  have hd := hrt _ _ (encode_of_GobEncode_ok gob m b h)
  rw [GobDecode_of_ok gob recv b _ hd]
  rfl

theorem sampleCodec_roundTrips : sampleCodec.RoundTrips := by
  intro em b h
  simp only [sampleCodec] at h ⊢
  split_ifs at h with h1 h2
  · simp only [Prod.mk.injEq, and_true] at h
    subst h; subst h1
    simp
  · simp only [Prod.mk.injEq, and_true] at h
    subst h; subst h2
    decide
  · simp at h

theorem sampleCodec_rejectsTruncation : sampleCodec.RejectsTruncation := by
  intro em b p h hp hne
  have hb : b = sampleBlob ∨ b = orphanBlob := by
    simp only [sampleCodec] at h
    split_ifs at h with h1 h2
    · left; simpa using h.symm
    · right; simpa using h.symm
    · simp at h
  have hlen : p.length < 4 := by
    have h1 := hp.length_le
    have h2 : b.length = 4 := by rcases hb with hb | hb <;> subst hb <;> rfl
    rcases Nat.lt_or_ge p.length 4 with h3 | h3
    · exact h3
    · exact absurd (hp.eq_of_length (by omega)) hne
  have h1 : p ≠ sampleBlob := fun h => by subst h; simp [sampleBlob] at hlen
  have h2 : p ≠ orphanBlob := fun h => by subst h; simp [orphanBlob] at hlen
  exact ⟨{ msg := "unexpected EOF" }, by simp [sampleCodec, h1, h2]⟩

/-! ## The claims -/

/-- Claim C1, round trip: for a gob codec whose decoder returns what its encoder
wrote, every model built by `newModel` on which `GobEncode` succeeds is decoded
by `GobDecode` without error, whatever the receiver held, to a model with the
same word, unigram, bigram and trigram tables, closed-class set and numberer. -/
theorem gob_round_trip (gob : GobCodec Marker) (hrt : gob.RoundTrips)
    (n : Option StringNumberer) (w : GoMap String (GoMap Tag Int))
    (u : GoMap Unigram Int) (b : GoMap Bigram Int) (t : GoMap Trigram Int)
    (c : ClosedClassSet Marker) (recv : Model Marker) (bytes : Bytes)
    (henc : (newModel n w u b t c).GobEncode gob = (bytes, none)) :
    (recv.GobDecode gob bytes).2 = none
      ∧ (recv.GobDecode gob bytes).1.WordTagFreqs = (newModel n w u b t c).WordTagFreqs
      ∧ (recv.GobDecode gob bytes).1.UnigramFreqs = (newModel n w u b t c).UnigramFreqs
      ∧ (recv.GobDecode gob bytes).1.BigramFreqs = (newModel n w u b t c).BigramFreqs
      ∧ (recv.GobDecode gob bytes).1.TrigramFreqs = (newModel n w u b t c).TrigramFreqs
      ∧ (recv.GobDecode gob bytes).1.ClosedClassTags
          = (newModel n w u b t c).ClosedClassTags
      ∧ (recv.GobDecode gob bytes).1.TagNumberer = (newModel n w u b t c).TagNumberer := by
  rw [GobDecode_GobEncode gob hrt _ recv bytes henc]
  exact ⟨rfl, rfl, rfl, rfl, rfl, rfl, rfl⟩

/-- The round trip of claim C1 on the sample model, decoded into a receiver
that held other data. -/
theorem gob_round_trip_witness :
    sampleCodec.RoundTrips
      ∧ (newModel (some sampleNumberer) sampleWords sampleUnigrams sampleBigrams
          sampleTrigrams sampleClosed).GobEncode sampleCodec = (sampleBlob, none)
      ∧ (staleModel.GobDecode sampleCodec sampleBlob).2 = none
      ∧ (staleModel.GobDecode sampleCodec sampleBlob).1.BigramFreqs = sampleBigrams
      ∧ (staleModel.GobDecode sampleCodec sampleBlob).1.ClosedClassTags = sampleClosed :=
  have h := gob_round_trip sampleCodec sampleCodec_roundTrips (some sampleNumberer)
    sampleWords sampleUnigrams sampleBigrams sampleTrigrams sampleClosed staleModel
    sampleBlob (by decide)
  ⟨sampleCodec_roundTrips, by decide, h.1, h.2.2.2.1, h.2.2.2.2.2.1⟩

/-- Claim C2, decode is all-or-nothing: when the gob decoder fails on the
input, `GobDecode` returns the decoder's error itself and the receiver is the
model it was before the call, whatever the decoder had written to its target. -/
theorem GobDecode_error_keeps_receiver (gob : GobCodec Marker) (m : Model Marker)
    (data : Bytes) (err : GoError) (hfail : (gob.decode data).2 = some err) :
    (m.GobDecode gob data).2 = some err ∧ (m.GobDecode gob data).1 = m := by
  rw [GobDecode_of_error gob m data err hfail]
  exact ⟨rfl, rfl⟩

/-- Claim C2 on a two-byte input that the sample codec rejects after half
filling its target: the receiver keeps its earlier contents. -/
theorem GobDecode_error_keeps_receiver_witness :
    (sampleCodec.decode [3, 0]).1 = halfDecoded
      ∧ (sampleCodec.decode [3, 0]).2 = some { msg := "unexpected EOF" }
      ∧ (staleModel.GobDecode sampleCodec [3, 0]).2 = some { msg := "unexpected EOF" }
      ∧ (staleModel.GobDecode sampleCodec [3, 0]).1 = staleModel :=
  ⟨by decide, by decide,
    GobDecode_error_keeps_receiver sampleCodec staleModel [3, 0]
      { msg := "unexpected EOF" } (by decide)⟩

/-- Claim C3 fails as stated: the orphan blob decodes without error into a
model whose unigram table holds code 0 while its numberer, which is empty,
resolves no code. `GobDecode` checks nothing: the same happens with every gob
codec that reads back what it wrote and can write the orphan value. -/
theorem GobDecode_accepts_orphan_code :
    sampleCodec.RoundTrips
      ∧ (staleModel.GobDecode sampleCodec orphanBlob).2 = none
      ∧ (staleModel.GobDecode sampleCodec orphanBlob).1.TagNumberer
          = some { labels := [] }
      ∧ 0 ∈ (staleModel.GobDecode sampleCodec orphanBlob).1.tagCodes
      ∧ (staleModel.GobDecode sampleCodec orphanBlob).1.resolvesTag 0 = false
      ∧ ¬ (staleModel.GobDecode sampleCodec orphanBlob).1.tagsResolved
      ∧ ∀ (gob : GobCodec Unit) (bytes : Bytes), gob.RoundTrips →
          gob.encode orphanEncoded = (bytes, none) →
            (staleModel.GobDecode gob bytes).2 = none
              ∧ ¬ (staleModel.GobDecode gob bytes).1.tagsResolved :=
  ⟨sampleCodec_roundTrips, by decide, by decide, by decide, by decide, by decide,
    fun gob bytes hrt henc => by
      rw [GobDecode_of_ok gob staleModel bytes orphanEncoded (hrt _ _ henc)]
      exact ⟨rfl, by decide⟩⟩

/-- Claim C3 as amended: for a gob codec whose decoder returns what its encoder
wrote, a model whose table codes are all resolved by its numberer, once encoded
with success, decodes without error to a model whose table codes are all
resolved by its numberer. -/
theorem GobDecode_keeps_tags_resolved (gob : GobCodec Marker) (hrt : gob.RoundTrips)
    (m recv : Model Marker) (bytes : Bytes) (hm : m.tagsResolved)
    (henc : m.GobEncode gob = (bytes, none)) :
    (recv.GobDecode gob bytes).2 = none ∧ (recv.GobDecode gob bytes).1.tagsResolved := by
  rw [GobDecode_GobEncode gob hrt m recv bytes henc]
  exact ⟨rfl, hm⟩

/-- The amended claim C3 on the sample model, whose tables use codes 0 and 1,
both known to its numberer. -/
theorem GobDecode_keeps_tags_resolved_witness :
    (newModel (some sampleNumberer) sampleWords sampleUnigrams sampleBigrams
        sampleTrigrams sampleClosed).tagsResolved
      ∧ (staleModel.GobDecode sampleCodec sampleBlob).2 = none
      ∧ (staleModel.GobDecode sampleCodec sampleBlob).1.tagsResolved :=
  ⟨by decide,
    GobDecode_keeps_tags_resolved sampleCodec sampleCodec_roundTrips
      (newModel (some sampleNumberer) sampleWords sampleUnigrams sampleBigrams
        sampleTrigrams sampleClosed) staleModel sampleBlob (by decide) (by decide)⟩

/-- Claim C4, truncation: for a gob codec whose decoder fails on every shortened
encoder output, when `GobEncode` succeeds with bytes `b` and `p` is a proper
prefix of `b`, `GobDecode` of `p` returns an error, the decoder's own, and the
receiver is left as it was: no model is produced. -/
theorem GobDecode_truncated_fails (gob : GobCodec Marker) (htr : gob.RejectsTruncation)
    (m recv : Model Marker) (b p : Bytes) (henc : m.GobEncode gob = (b, none))
    (hpre : p <+: b) (hne : p ≠ b) :
    ∃ err, (gob.decode p).2 = some err ∧ (recv.GobDecode gob p).2 = some err
      ∧ (recv.GobDecode gob p).1 = recv := by
  obtain ⟨err, herr⟩ := htr _ b p (encode_of_GobEncode_ok gob m b henc) hpre hne
  refine ⟨err, herr, ?_⟩
  rw [GobDecode_of_error gob recv p err herr]
  exact ⟨rfl, rfl⟩

/-- Claim C4 on the sample blob cut to its first three bytes. -/
theorem GobDecode_truncated_fails_witness :
    sampleCodec.RejectsTruncation
      ∧ ([3, 0, 1] : Bytes) <+: sampleBlob
      ∧ ∃ err, (sampleCodec.decode [3, 0, 1]).2 = some err
          ∧ (staleModel.GobDecode sampleCodec [3, 0, 1]).2 = some err
          ∧ (staleModel.GobDecode sampleCodec [3, 0, 1]).1 = staleModel :=
  ⟨sampleCodec_rejectsTruncation, by decide,
    GobDecode_truncated_fails sampleCodec sampleCodec_rejectsTruncation
      (newModel (some sampleNumberer) sampleWords sampleUnigrams sampleBigrams
        sampleTrigrams sampleClosed) staleModel sampleBlob [3, 0, 1]
      (by decide) (by decide) (by decide)⟩

/-- Claim C5, summary format: `String()` is the four key counts in decimal
joined as `<W> words, <U> unigrams, <B> bigrams, <T> trigrams`; with 3 words,
5 unigrams, 7 bigrams and 2 trigrams it is exactly
`3 words, 5 unigrams, 7 bigrams, 2 trigrams`. -/
theorem String_summary_format (m : Model Marker) (W U B T : Nat)
    (hW : m.wordTagFreqs.len = W) (hU : m.unigramFreqs.len = U)
    (hB : m.bigramFreqs.len = B) (hT : m.trigramFreqs.len = T) :
    m.String = toString W ++ " words, " ++ toString U ++ " unigrams, "
        ++ toString B ++ " bigrams, " ++ toString T ++ " trigrams"
      ∧ (W = 3 → U = 5 → B = 7 → T = 2 →
          m.String = "3 words, 5 unigrams, 7 bigrams, 2 trigrams") := by
  subst hW hU hB hT
  have key : m.String = toString m.wordTagFreqs.len ++ " words, "
      ++ toString m.unigramFreqs.len ++ " unigrams, "
      ++ toString m.bigramFreqs.len ++ " bigrams, "
      ++ toString m.trigramFreqs.len ++ " trigrams" := by
    apply String.ext
    simp [Model.String, Sprintf, sprintfAux, formatInt]
    rfl
  refine ⟨key, ?_⟩
  intro h1 h2 h3 h4
  rw [key, h1, h2, h3, h4]
  decide

/-- Claim C5 on a model with 3 words, 5 unigrams, 7 bigrams and 2 trigrams. -/
theorem String_summary_format_witness :
    summaryModel.wordTagFreqs.len = 3 ∧ summaryModel.unigramFreqs.len = 5
      ∧ summaryModel.bigramFreqs.len = 7 ∧ summaryModel.trigramFreqs.len = 2
      ∧ summaryModel.String = "3 words, 5 unigrams, 7 bigrams, 2 trigrams" :=
  ⟨by decide, by decide, by decide, by decide,
    (String_summary_format summaryModel 3 5 7 2 (by decide) (by decide) (by decide)
      (by decide)).2 rfl rfl rfl rfl⟩

/-- Claim C6, constructor and accessors agree, with no validation: for all
inputs, well formed or not, each accessor of `newModel n w u b t c` returns the
corresponding input unchanged. -/
theorem newModel_accessors (n : Option StringNumberer)
    (w : GoMap String (GoMap Tag Int)) (u : GoMap Unigram Int) (b : GoMap Bigram Int)
    (t : GoMap Trigram Int) (c : ClosedClassSet Marker) :
    (newModel n w u b t c).TagNumberer = n
      ∧ (newModel n w u b t c).WordTagFreqs = w
      ∧ (newModel n w u b t c).UnigramFreqs = u
      ∧ (newModel n w u b t c).BigramFreqs = b
      ∧ (newModel n w u b t c).TrigramFreqs = t
      ∧ (newModel n w u b t c).ClosedClassTags = c :=
  ⟨rfl, rfl, rfl, rfl, rfl, rfl⟩

/-- Claim C7, encode is all-or-nothing: either the gob encoder returns no error
and `GobEncode` returns the buffer with no error, or the encoder returns an
error and `GobEncode` returns that error with nil bytes, whatever the encoder
had written to the buffer. -/
theorem GobEncode_all_or_nothing (gob : GobCodec Marker) (m : Model Marker) :
    ((gob.encode m.encoded).2 = none
        ∧ m.GobEncode gob = ((gob.encode m.encoded).1, none))
      ∨ (∃ err, (gob.encode m.encoded).2 = some err
        ∧ m.GobEncode gob = ([], some err)) := by
  rw [GobEncode_eq]
  rcases he : gob.encode m.encoded with ⟨buf, e⟩
  cases e with
  | none => exact Or.inl ⟨rfl, rfl⟩
  | some e0 => exact Or.inr ⟨e0, rfl, rfl⟩

/-- Claim C8, closed-class independence: two models built with the same
closed-class set return the same `ClosedClassTags()`, whatever their numberers
and frequency tables, and a name is in that result exactly when it is in the
set, with its marker. -/
theorem ClosedClassTags_independent (c : ClosedClassSet Marker)
    (n₁ n₂ : Option StringNumberer) (w₁ w₂ : GoMap String (GoMap Tag Int))
    (u₁ u₂ : GoMap Unigram Int) (b₁ b₂ : GoMap Bigram Int) (t₁ t₂ : GoMap Trigram Int) :
    (newModel n₁ w₁ u₁ b₁ t₁ c).ClosedClassTags = (newModel n₂ w₂ u₂ b₂ t₂ c).ClosedClassTags
      ∧ (∀ name, name ∈ (newModel n₁ w₁ u₁ b₁ t₁ c).ClosedClassTags ↔ name ∈ c)
      ∧ (∀ name, (newModel n₁ w₁ u₁ b₁ t₁ c).ClosedClassTags.lookup name
          = c.lookup name) :=
  ⟨rfl, fun _ => Iff.rfl, fun _ => rfl⟩

/-- Claim C9, no zero entry: a model built by `newModel` from tables without a
zero count exposes no zero count through its four frequency accessors, and for
a gob codec whose decoder returns what its encoder wrote the same holds of the
model decoded from its encoding. -/
theorem noZeroEntry_preserved (gob : GobCodec Marker) (hrt : gob.RoundTrips)
    (n : Option StringNumberer) (w : GoMap String (GoMap Tag Int))
    (u : GoMap Unigram Int) (b : GoMap Bigram Int) (t : GoMap Trigram Int)
    (c : ClosedClassSet Marker) (hw : w.noZeroNested) (hu : u.noZero) (hb : b.noZero)
    (ht : t.noZero) :
    (newModel n w u b t c).noZeroEntry
      ∧ ∀ (recv : Model Marker) (bytes : Bytes),
          (newModel n w u b t c).GobEncode gob = (bytes, none) →
            (recv.GobDecode gob bytes).2 = none
              ∧ (recv.GobDecode gob bytes).1.noZeroEntry := by
  have h0 : (newModel n w u b t c).noZeroEntry := ⟨hw, hu, hb, ht⟩
  refine ⟨h0, ?_⟩
  intro recv bytes henc
  rw [GobDecode_GobEncode gob hrt _ recv bytes henc]
  exact ⟨rfl, h0⟩

/-- Claim C9 on the sample tables, decoded into a receiver that held other
data. -/
theorem noZeroEntry_preserved_witness :
    sampleWords.noZeroNested ∧ sampleUnigrams.noZero ∧ sampleBigrams.noZero
      ∧ sampleTrigrams.noZero
      ∧ (staleModel.GobDecode sampleCodec sampleBlob).2 = none
      ∧ (staleModel.GobDecode sampleCodec sampleBlob).1.noZeroEntry :=
  ⟨by decide, by decide, by decide, by decide,
    (noZeroEntry_preserved sampleCodec sampleCodec_roundTrips (some sampleNumberer)
      sampleWords sampleUnigrams sampleBigrams sampleTrigrams sampleClosed
      (by decide) (by decide) (by decide) (by decide)).2 staleModel sampleBlob
      (by decide)⟩

/-- Claim C10, decode builds the model as the constructor would: when the gob
decoder decodes the input to `em` without error, the receiver after `GobDecode`
is `newModel` of the six components of `em`, whatever the receiver held. -/
theorem GobDecode_eq_newModel (gob : GobCodec Marker) (m : Model Marker) (data : Bytes)
    (em : encodedModel Marker) (hdec : gob.decode data = (em, none)) :
    (m.GobDecode gob data).2 = none
      ∧ (m.GobDecode gob data).1
          = newModel em.TagNumberer em.WordTagFreqs em.UnigramFreqs em.BigramFreqs
              em.TrigramFreqs em.ClosedClass := by
  rw [GobDecode_of_ok gob m data em hdec]
  exact ⟨rfl, rfl⟩

/-- Claim C10 on the orphan blob: the stale receiver, which held a bigram and a
closed-class name, ends as the constructor applied to the decoded components. -/
theorem GobDecode_eq_newModel_witness :
    sampleCodec.decode orphanBlob = (orphanEncoded, none)
      ∧ (staleModel.GobDecode sampleCodec orphanBlob).2 = none
      ∧ (staleModel.GobDecode sampleCodec orphanBlob).1
          = newModel (some { labels := [] }) ∅ orphanUnigrams ∅ ∅ ∅ :=
  ⟨by decide,
    GobDecode_eq_newModel sampleCodec staleModel orphanBlob orphanEncoded (by decide)⟩

/-- Claim C6 on tables that break the invariants: a zero count and a tag code
unknown to the empty numberer come back unchanged. -/
theorem newModel_accessors_witness :
    (newModel (some { labels := [] }) zeroWords orphanUnigrams ∅ ∅
        sampleClosed).TagNumberer = some { labels := [] }
      ∧ (newModel (some { labels := [] }) zeroWords orphanUnigrams ∅ ∅
          sampleClosed).WordTagFreqs = zeroWords
      ∧ (newModel (some { labels := [] }) zeroWords orphanUnigrams ∅ ∅
          sampleClosed).UnigramFreqs = orphanUnigrams
      ∧ (newModel (some { labels := [] }) zeroWords orphanUnigrams ∅ ∅
          sampleClosed).BigramFreqs = ∅
      ∧ (newModel (some { labels := [] }) zeroWords orphanUnigrams ∅ ∅
          sampleClosed).TrigramFreqs = ∅
      ∧ (newModel (some { labels := [] }) zeroWords orphanUnigrams ∅ ∅
          sampleClosed).ClosedClassTags = sampleClosed :=
  newModel_accessors (some { labels := [] }) zeroWords orphanUnigrams ∅ ∅ sampleClosed

/-- Claim C7 on the stale model, which the sample codec cannot encode: the
encoder leaves one byte in the buffer and fails, `GobEncode` returns nil bytes
and that error. -/
theorem GobEncode_all_or_nothing_witness :
    sampleCodec.encode staleModel.encoded
        = ([1], some { msg := "gob: type not registered for interface" })
      ∧ staleModel.GobEncode sampleCodec
        = ([], some { msg := "gob: type not registered for interface" }) :=
  ⟨by decide,
    (GobEncode_all_or_nothing sampleCodec staleModel).elim
      (fun h => absurd h.1 (by decide))
      (fun h => by
        obtain ⟨err, h1, h2⟩ := h
        have h3 : err = { msg := "gob: type not registered for interface" } :=
          Option.some.inj (h1.symm.trans (by decide))
        rw [h2, h3])⟩

/-- Claim C8 on the sample closed-class set: `DT`, unknown to the numberer and
absent from every table, is returned by both models. -/
theorem ClosedClassTags_independent_witness :
    "DT" ∈ (newModel (some sampleNumberer) sampleWords sampleUnigrams sampleBigrams
        sampleTrigrams sampleClosed).ClosedClassTags
      ∧ "DT" ∈ (newModel none ∅ ∅ ∅ ∅ sampleClosed).ClosedClassTags :=
  have h := ClosedClassTags_independent sampleClosed (some sampleNumberer) none
    sampleWords ∅ sampleUnigrams ∅ sampleBigrams ∅ sampleTrigrams ∅
  ⟨(h.2.1 "DT").mpr (by decide), h.1 ▸ (h.2.1 "DT").mpr (by decide)⟩

end Citar
